import Mathlib

set_option autoImplicit false

/-!
Shallow embedding of the Bing Maps adapter services of the angular-maps
repository: `BingMarkerService` (src/services/bingmarkerservice.ts) and
`BingPolylineService` (src/unnamed/part_000).

Modelling conventions:
* JavaScript `Map<Handle, Promise<V>>` is an association list from the
  handle's object identity (a `Nat` field `oid`) to the stored promise.
* A stored promise is a structure carrying an identity `pid` (promise object
  identity) and, for polylines, the value it resolves to, so that the
  continuations attached with `.then` can be described.
* Each service method is a pure function from the service state (the lookup
  table) to the new state together with an explicit description of its
  observable effects: the external creation call it makes, the calls it
  forwards to the native object once the creation promise resolves, or the
  fact that it throws (calling `.then` on an `undefined` lookup result).
* External collaborators (`MapService`, `LayerService`, `ClusterService`,
  `BingConversions`, `tryLocationToPixel`) are parameters (`MarkerEnv`,
  `PolylineEnv`, `PixelEnv`): the theorems hold for every behaviour of the
  wrapped SDK.
-/

/-- Geo coordinates, the `ILatLong` interface. Numeric fields are modelled
as integers; none of the services does arithmetic on them beyond copying. -/
structure ILatLong where
  latitude : Int
  longitude : Int
deriving DecidableEq, Repr

/-- Pixel coordinates, the `IPoint` interface. -/
structure IPoint where
  x : Int
  y : Int
deriving DecidableEq, Repr

/-- Pixel size, as used by `IMarkerIconInfo.size`. -/
structure ISize where
  width : Int
  height : Int
deriving DecidableEq, Repr

/-- Offset ratio, as used by `IMarkerIconInfo.markerOffsetRatio`. -/
structure IRatio where
  x : Int
  y : Int
deriving DecidableEq, Repr

/-- The fields of `IMarkerIconInfo` that the marker service reads. -/
structure IMarkerIconInfo where
  size : Option ISize
  markerOffsetRatio : Option IRatio
deriving DecidableEq, Repr

/-- The `IMarkerOptions` interface. All fields are optional in TypeScript;
a field the code does not assign stays `none`. -/
structure IMarkerOptions where
  position : Option ILatLong := none
  title : Option String := none
  label : Option String := none
  draggable : Option Bool := none
  icon : Option String := none
  iconInfo : Option IMarkerIconInfo := none
  width : Option Int := none
  height : Option Int := none
  anchor : Option IPoint := none
  metadata : Option String := none
deriving DecidableEq, Repr

/-- The `MapMarker` component handle: `oid` is the object identity used as
the `Map` key; the remaining fields are the component properties the
service reads. -/
structure MapMarker where
  oid : Nat
  Latitude : Int
  Longitude : Int
  Title : String
  Label : String
  Draggable : Bool
  IconUrl : String
  IconInfo : Option IMarkerIconInfo
  Width : Option Int
  Height : Option Int
  Anchor : Option IPoint
  Metadata : Option String
  InClusterLayer : Bool
  InCustomLayer : Bool
  LayerId : Nat
deriving DecidableEq, Repr

/-- JavaScript truthiness of an optional number (`if (marker.Width)`):
false for `undefined` and for `0`. -/
def truthyNum : Option Int → Bool
  | none => false
  | some n => n != 0

/-- Association-list model of the JavaScript `Map`: lookup of `Map.get`
(`none` plays the role of `undefined`). -/
def mapGet {V : Type} : List (Nat × V) → Nat → Option V
  | [], _ => none
  | kv :: rest, k => if kv.1 = k then some kv.2 else mapGet rest k

/-- `Map.set`: replace the value at an existing key, else append the entry. -/
def mapSet {V : Type} : List (Nat × V) → Nat → V → List (Nat × V)
  | [], k, v => [(k, v)]
  | kv :: rest, k, v => if kv.1 = k then (k, v) :: rest else kv :: mapSet rest k v

/-- `Map.delete`: remove the entry at the key. -/
def mapDelete {V : Type} : List (Nat × V) → Nat → List (Nat × V)
  | [], _ => []
  | kv :: rest, k => if kv.1 = k then mapDelete rest k else kv :: mapDelete rest k

theorem mapGet_mapSet_self {V : Type} (l : List (Nat × V)) (k : Nat) (v : V) :
    mapGet (mapSet l k v) k = some v := by
  induction l with
  | nil => simp [mapSet, mapGet]
  | cons kv rest ih =>
    by_cases h : kv.1 = k
    · simp [mapSet, h, mapGet]
    · simp [mapSet, h, mapGet, ih]

theorem mapGet_mapSet_ne {V : Type} (l : List (Nat × V)) (k : Nat) (v : V)
    (q : Nat) (h : q ≠ k) : mapGet (mapSet l k v) q = mapGet l q := by
  have hkq : ¬ k = q := fun e => h e.symm
  induction l with
  | nil => simp [mapSet, mapGet, hkq]
  | cons kv rest ih =>
    by_cases hk : kv.1 = k
    · have h1 : ¬ kv.1 = q := by rw [hk]; exact hkq
      simp [mapSet, hk, mapGet, hkq, h1]
    · simp [mapSet, hk, mapGet, ih]

theorem mapGet_mapDelete_self {V : Type} (l : List (Nat × V)) (k : Nat) :
    mapGet (mapDelete l k) k = none := by
  induction l with
  | nil => simp [mapDelete, mapGet]
  | cons kv rest ih =>
    by_cases h : kv.1 = k
    · simp [mapDelete, h, ih]
    · simp [mapDelete, h, mapGet, ih]

theorem mapGet_mapDelete_ne {V : Type} (l : List (Nat × V)) (k : Nat) (q : Nat)
    (h : q ≠ k) : mapGet (mapDelete l k) q = mapGet l q := by
  induction l with
  | nil => simp [mapDelete]
  | cons kv rest ih =>
    by_cases hk : kv.1 = k
    · have h1 : ¬ kv.1 = q := by rw [hk]; exact fun e => h e.symm
      have hkq : ¬ k = q := fun e => h e.symm
      simp [mapDelete, hk, mapGet, h1, hkq, ih]
    · simp [mapDelete, hk, mapGet, ih]

theorem isSome_mapGet_mapSet {V : Type} (l : List (Nat × V)) (k : Nat) (v : V)
    (q : Nat) :
    (mapGet (mapSet l k v) q).isSome = ((mapGet l q).isSome || (q == k)) := by
  by_cases h : q = k
  · subst h
    simp [mapGet_mapSet_self]
  · simp [mapGet_mapSet_ne l k v q h, h]

/-- Identity of the promise stored by `AddMarker` together with the identity
of the native `Marker` it resolves to. -/
structure MarkerProm where
  pid : Nat
  native : Nat
deriving DecidableEq, Repr

/-- The single external creation call `AddMarker` makes, with its argument. -/
inductive MarkerCreateCall
  | cluster (layerId : Nat) (o : IMarkerOptions)
  | layer (layerId : Nat) (o : IMarkerOptions)
  | mapSvc (o : IMarkerOptions)
deriving DecidableEq, Repr

/-- Behaviour of the external collaborators of `BingMarkerService`:
`ClusterService.CreateMarker`, `LayerService.CreateMarker`,
`MapService.CreateMarker`, and the icon field produced by
`BingConversions.TranslateMarkerOptions` (used by `UpdateIcon`). -/
structure MarkerEnv where
  clusterCreateMarker : Nat → IMarkerOptions → MarkerProm
  layerCreateMarker : Nat → IMarkerOptions → MarkerProm
  mapCreateMarker : IMarkerOptions → MarkerProm
  translateMarkerOptionsIcon : IMarkerOptions → Option String

/-- A mutator call forwarded to the native `Marker` object. -/
inductive NativeMarkerCall
  | SetTitle (title : String)
  | SetLabel (label : String)
  | SetDraggable (draggable : Bool)
  | SetPosition (position : ILatLong)
  | SetAnchor (anchor : Option IPoint)
  | SetIcon (icon : Option String)
  | DeleteMarker
deriving DecidableEq, Repr

/-- An observable effect of a marker-service continuation: a call on a
native marker (identified by its `native` id) or the
`marker.DynamicMarkerCreated.emit(...)` event on the handle. -/
inductive MarkerAction
  | nativeCall (target : Nat) (call : NativeMarkerCall)
  | emitDynamicMarkerCreated (info : Option IMarkerIconInfo)
deriving DecidableEq, Repr

/-- State of `BingMarkerService`: the private `_markers` lookup table. -/
structure MarkerServiceState where
  _markers : List (Nat × MarkerProm)
deriving DecidableEq, Repr

/-- Outcome of an operation that returns a promise: it throws synchronously
(`.then` called on an `undefined` lookup result), returns
`Promise.resolve()` with no further effect, or performs `actions` after the
stored creation promise resolves. -/
inductive UpdateOutcome (A : Type)
  | throws
  | resolvedNow
  | afterPromise (actions : List A)
deriving DecidableEq, Repr

/-- The options object `o` built at the start of `AddMarker`, field by
field; `width`, `height`, `anchor`, `metadata` are only assigned when the
corresponding property is truthy. -/
def BingMarkerService.buildMarkerOptions (marker : MapMarker) : IMarkerOptions :=
  { position := some ⟨marker.Latitude, marker.Longitude⟩
    title := some marker.Title
    label := some marker.Label
    draggable := some marker.Draggable
    icon := some marker.IconUrl
    iconInfo := marker.IconInfo
    width := if truthyNum marker.Width then marker.Width else none
    height := if truthyNum marker.Height then marker.Height else none
    anchor := marker.Anchor
    metadata := marker.Metadata }

/-- Result of `AddMarker`: the creation call made, the promise stored in
`_markers`, and the actions of the `markerPromise.then` continuation that is
attached when `marker.IconInfo` is present. -/
structure AddMarkerResult where
  createCall : MarkerCreateCall
  prom : MarkerProm
  postCreate : List MarkerAction
deriving DecidableEq, Repr

/-- `BingMarkerService.AddMarker`: build the options object, create the
marker via the cluster, layer or map service according to the handle's
layer context, store the returned promise under the handle, and, when
`IconInfo` is present, attach a continuation that emits
`DynamicMarkerCreated` and re-anchors the native marker. -/
def BingMarkerService.AddMarker (env : MarkerEnv) (s : MarkerServiceState)
    (marker : MapMarker) : MarkerServiceState × AddMarkerResult :=
  let o := BingMarkerService.buildMarkerOptions marker
  let created :=
    if marker.InClusterLayer then
      (MarkerCreateCall.cluster marker.LayerId o, env.clusterCreateMarker marker.LayerId o)
    else if marker.InCustomLayer then
      (MarkerCreateCall.layer marker.LayerId o, env.layerCreateMarker marker.LayerId o)
    else
      (MarkerCreateCall.mapSvc o, env.mapCreateMarker o)
  let post : List MarkerAction :=
    match o.iconInfo with
    | none => []
    | some ii =>
      let px : Int :=
        match ii.size, ii.markerOffsetRatio with
        | some sz, some r => sz.width * r.x
        | _, _ => 0
      let py : Int :=
        match ii.size, ii.markerOffsetRatio with
        | some sz, some r => sz.height * r.y
        | _, _ => 0
      [MarkerAction.emitDynamicMarkerCreated o.iconInfo,
       MarkerAction.nativeCall created.2.native (NativeMarkerCall.SetAnchor (some ⟨px, py⟩))]
  (⟨mapSet s._markers marker.oid created.2⟩, ⟨created.1, created.2, post⟩)

/-- `BingMarkerService.DeleteMarker`: resolved no-op when the handle has no
entry; otherwise, after the stored promise resolves, delete the native
marker and remove the entry. -/
def BingMarkerService.DeleteMarker (s : MarkerServiceState) (marker : MapMarker) :
    MarkerServiceState × UpdateOutcome MarkerAction :=
  match mapGet s._markers marker.oid with
  | none => (s, UpdateOutcome.resolvedNow)
  | some m =>
    (⟨mapDelete s._markers marker.oid⟩,
     UpdateOutcome.afterPromise [MarkerAction.nativeCall m.native NativeMarkerCall.DeleteMarker])

/-- `BingMarkerService.UpdateAnchor`: `.then` on the lookup result (throws
when the entry is absent), forwarding `SetAnchor(marker.Anchor)`. -/
def BingMarkerService.UpdateAnchor (s : MarkerServiceState) (marker : MapMarker) :
    MarkerServiceState × UpdateOutcome MarkerAction :=
  match mapGet s._markers marker.oid with
  | none => (s, UpdateOutcome.throws)
  | some m =>
    (s, UpdateOutcome.afterPromise
      [MarkerAction.nativeCall m.native (NativeMarkerCall.SetAnchor marker.Anchor)])

/-- `BingMarkerService.UpdateMarkerPosition`: forwards `SetPosition` with
the handle's current latitude and longitude. -/
def BingMarkerService.UpdateMarkerPosition (s : MarkerServiceState) (marker : MapMarker) :
    MarkerServiceState × UpdateOutcome MarkerAction :=
  match mapGet s._markers marker.oid with
  | none => (s, UpdateOutcome.throws)
  | some m =>
    (s, UpdateOutcome.afterPromise
      [MarkerAction.nativeCall m.native
        (NativeMarkerCall.SetPosition ⟨marker.Latitude, marker.Longitude⟩)])

/-- `BingMarkerService.UpdateTitle`: forwards `SetTitle(marker.Title)`. -/
def BingMarkerService.UpdateTitle (s : MarkerServiceState) (marker : MapMarker) :
    MarkerServiceState × UpdateOutcome MarkerAction :=
  match mapGet s._markers marker.oid with
  | none => (s, UpdateOutcome.throws)
  | some m =>
    (s, UpdateOutcome.afterPromise
      [MarkerAction.nativeCall m.native (NativeMarkerCall.SetTitle marker.Title)])

/-- `BingMarkerService.UpdateLabel`: forwards `SetLabel(marker.Label)`. -/
def BingMarkerService.UpdateLabel (s : MarkerServiceState) (marker : MapMarker) :
    MarkerServiceState × UpdateOutcome MarkerAction :=
  match mapGet s._markers marker.oid with
  | none => (s, UpdateOutcome.throws)
  | some m =>
    (s, UpdateOutcome.afterPromise
      [MarkerAction.nativeCall m.native (NativeMarkerCall.SetLabel marker.Label)])

/-- `BingMarkerService.UpdateDraggable`: forwards `SetDraggable(marker.Draggable)`. -/
def BingMarkerService.UpdateDraggable (s : MarkerServiceState) (marker : MapMarker) :
    MarkerServiceState × UpdateOutcome MarkerAction :=
  match mapGet s._markers marker.oid with
  | none => (s, UpdateOutcome.throws)
  | some m =>
    (s, UpdateOutcome.afterPromise
      [MarkerAction.nativeCall m.native (NativeMarkerCall.SetDraggable marker.Draggable)])

/-- `BingMarkerService.UpdateIcon`: with `IconInfo` present, builds a fresh
options object, translates it via `BingConversions.TranslateMarkerOptions`
and forwards its icon to `SetIcon`, then emits `DynamicMarkerCreated`;
otherwise forwards `SetIcon(marker.IconUrl)`. -/
def BingMarkerService.UpdateIcon (env : MarkerEnv) (s : MarkerServiceState)
    (marker : MapMarker) : MarkerServiceState × UpdateOutcome MarkerAction :=
  match mapGet s._markers marker.oid with
  | none => (s, UpdateOutcome.throws)
  | some m =>
    match marker.IconInfo with
    | some _ =>
      let x : IMarkerOptions :=
        { position := some ⟨marker.Latitude, marker.Longitude⟩
          iconInfo := marker.IconInfo }
      (s, UpdateOutcome.afterPromise
        [MarkerAction.nativeCall m.native
          (NativeMarkerCall.SetIcon (env.translateMarkerOptionsIcon x)),
         MarkerAction.emitDynamicMarkerCreated x.iconInfo])
    | none =>
      (s, UpdateOutcome.afterPromise
        [MarkerAction.nativeCall m.native (NativeMarkerCall.SetIcon (some marker.IconUrl))])

/-- `BingMarkerService.LocationToPoint`: `.then` on the lookup result
(throws when absent); the continuation only reads the native marker's
location and delegates to `MapService.LocationToPoint`, touching no
service state and no native mutator. -/
def BingMarkerService.LocationToPoint (s : MarkerServiceState) (marker : MapMarker) :
    MarkerServiceState × UpdateOutcome MarkerAction :=
  match mapGet s._markers marker.oid with
  | none => (s, UpdateOutcome.throws)
  | some _ => (s, UpdateOutcome.afterPromise [])

/-- `BingMarkerService.GetNativeMarker`: return the stored promise
(`undefined`, i.e. `none`, when the handle has no entry). -/
def BingMarkerService.GetNativeMarker (s : MarkerServiceState) (marker : MapMarker) :
    Option MarkerProm :=
  mapGet s._markers marker.oid

/-- One emission to an rxjs observer (`observer.next(e)`). -/
inductive Emission (T : Type)
  | next (e : T)
deriving DecidableEq, Repr

/-- An `AddListener(eventName, handler)` registration performed on the
native object identified by `target`. -/
structure ListenerRegistration (T : Type) where
  target : Nat
  eventName : String
  handler : T → Emission T

/-- Effect of subscribing to the observable returned by the marker
service's `CreateEventObservable`: throws inside the subscription when the
handle has no entry, otherwise registers listeners once the stored promise
resolves. -/
inductive SubscribeResult (T : Type)
  | throws
  | registered (regs : List (ListenerRegistration T))

/-- Subscription behaviour of `BingMarkerService.CreateEventObservable`:
each subscriber causes one `AddListener(eventName, ...)` on the native
marker, whose handler forwards the event to the observer inside
`zone.run`. -/
def BingMarkerService.subscribeEventObservable (T : Type) (s : MarkerServiceState)
    (eventName : String) (marker : MapMarker) : SubscribeResult T :=
  match mapGet s._markers marker.oid with
  | none => SubscribeResult.throws
  | some m =>
    SubscribeResult.registered [⟨m.native, eventName, fun e => Emission.next e⟩]

/-- A native Bing primitive attached to a mouse event: either a `Pushpin`
with its location, or some other primitive. -/
inductive BingPrimitive
  | pushpin (location : ILatLong)
  | other
deriving DecidableEq, Repr

/-- The mouse-event payload the marker service inspects: the optional
`primitive` property. The event argument itself may be `null`. -/
structure MarkerMouseEvent where
  primitive : Option BingPrimitive
deriving DecidableEq, Repr

/-- `BingMarkerService.GetCoordinatesFromClick`: null checks in source
order, then the clicked pushpin's location. -/
def BingMarkerService.GetCoordinatesFromClick (e : Option MarkerMouseEvent) :
    Option ILatLong :=
  match e with
  | none => none
  | some ev =>
    match ev.primitive with
    | none => none
    | some BingPrimitive.other => none
    | some (BingPrimitive.pushpin loc) => some loc

/-- A `Microsoft.Maps.Location` value. -/
structure BingLocation where
  latitude : Int
  longitude : Int
deriving DecidableEq, Repr

/-- A `Microsoft.Maps.Point` value. -/
structure BingPoint where
  x : Int
  y : Int
deriving DecidableEq, Repr

/-- External behaviour used by `GetPixelsFromClick`:
`BingConversions.TranslateLocation` and the map instance's
`tryLocationToPixel` (which may return `null`). -/
structure PixelEnv where
  translateLocation : ILatLong → BingLocation
  tryLocationToPixel : BingLocation → Option BingPoint

/-- `BingMarkerService.GetPixelsFromClick`: null when the coordinates are
null, null when the pixel translation is null, else the translated point. -/
def BingMarkerService.GetPixelsFromClick (env : PixelEnv) (e : Option MarkerMouseEvent) :
    Option IPoint :=
  match BingMarkerService.GetCoordinatesFromClick e with
  | none => none
  | some loc =>
    match env.tryLocationToPixel (env.translateLocation loc) with
    | none => none
    | some p => some ⟨p.x, p.y⟩

/-- The operations of `BingMarkerService` that can touch the `_markers`
table (the click helpers read no service state at all). -/
inductive MarkerOp
  | addMarker (marker : MapMarker)
  | createEventObservable (eventName : String) (marker : MapMarker)
  | deleteMarker (marker : MapMarker)
  | getNativeMarker (marker : MapMarker)
  | locationToPoint (marker : MapMarker)
  | updateAnchor (marker : MapMarker)
  | updateMarkerPosition (marker : MapMarker)
  | updateTitle (marker : MapMarker)
  | updateLabel (marker : MapMarker)
  | updateDraggable (marker : MapMarker)
  | updateIcon (marker : MapMarker)
deriving DecidableEq, Repr

/-- The `_markers` table after an operation of the marker service (and the
completion of any continuation the operation attaches). Subscribing to an
event observable and `GetNativeMarker` only read the table. -/
def markerOpState (env : MarkerEnv) (s : MarkerServiceState) : MarkerOp → MarkerServiceState
  | MarkerOp.addMarker m => (BingMarkerService.AddMarker env s m).1
  | MarkerOp.createEventObservable _ _ => s
  | MarkerOp.deleteMarker m => (BingMarkerService.DeleteMarker s m).1
  | MarkerOp.getNativeMarker _ => s
  | MarkerOp.locationToPoint m => (BingMarkerService.LocationToPoint s m).1
  | MarkerOp.updateAnchor m => (BingMarkerService.UpdateAnchor s m).1
  | MarkerOp.updateMarkerPosition m => (BingMarkerService.UpdateMarkerPosition s m).1
  | MarkerOp.updateTitle m => (BingMarkerService.UpdateTitle s m).1
  | MarkerOp.updateLabel m => (BingMarkerService.UpdateLabel s m).1
  | MarkerOp.updateDraggable m => (BingMarkerService.UpdateDraggable s m).1
  | MarkerOp.updateIcon m => (BingMarkerService.UpdateIcon env s m).1

/-- The path property of a polyline directive: `Array<ILatLong>` (a simple
path) or `Array<Array<ILatLong>>` (a complex, multi-segment path). -/
inductive PolylinePath
  | simple (path : List ILatLong)
  | complex (paths : List (List ILatLong))
deriving DecidableEq, Repr

/-- The `IPolylineOptions` interface; all fields optional. -/
structure IPolylineOptions where
  id : Option Nat := none
  clickable : Option Bool := none
  draggable : Option Bool := none
  editable : Option Bool := none
  geodesic : Option Bool := none
  path : Option PolylinePath := none
  showTooltip : Option Bool := none
  strokeColor : Option String := none
  strokeOpacity : Option Int := none
  strokeWeight : Option Int := none
  title : Option String := none
  visible : Option Bool := none
  zIndex : Option Int := none
deriving DecidableEq, Repr

/-- The `MapPolylineDirective` handle: `oid` is the object identity used as
the `Map` key; the remaining fields are the directive properties read by
the service. -/
structure MapPolylineDirective where
  oid : Nat
  Id : Nat
  Clickable : Bool
  Draggable : Bool
  Editable : Bool
  Geodesic : Bool
  Path : PolylinePath
  ShowTooltip : Bool
  StrokeColor : String
  StrokeOpacity : Int
  StrokeWeight : Int
  Title : String
  Visible : Bool
  zIndex : Int
  InCustomLayer : Bool
  LayerId : Nat
deriving DecidableEq, Repr

/-- A native `Polyline` model object, identified by `nid`. -/
structure NativePolyline where
  nid : Nat
deriving DecidableEq, Repr

/-- The value a polyline creation promise resolves to:
`Polyline | Array<Polyline>`. -/
inductive PolylineOrArray
  | single (p : NativePolyline)
  | arr (ps : List NativePolyline)
deriving DecidableEq, Repr

/-- `Array.isArray(l) ? l : [l]`. -/
def toPolylineArray : PolylineOrArray → List NativePolyline
  | PolylineOrArray.single p => [p]
  | PolylineOrArray.arr ps => ps

/-- The promise stored by `AddPolyline`: its object identity `pid` and the
value it resolves to. -/
structure PolylineProm where
  pid : Nat
  value : PolylineOrArray
deriving DecidableEq, Repr

/-- Behaviour of the external collaborators of `BingPolylineService`:
`LayerService.CreatePolyline` and `MapService.CreatePolyline`. -/
structure PolylineEnv where
  layerCreatePolyline : Nat → IPolylineOptions → PolylineProm
  mapCreatePolyline : IPolylineOptions → PolylineProm

/-- The single external creation call `AddPolyline` makes. -/
inductive PolylineCreateCall
  | layer (layerId : Nat) (o : IPolylineOptions)
  | mapSvc (o : IPolylineOptions)
deriving DecidableEq, Repr

/-- A mutator call forwarded to a native polyline, identified by `target`. -/
inductive NativePolylineCall
  | SetPath (target : Nat) (path : List ILatLong)
  | Delete (target : Nat)
  | SetOptions (target : Nat) (options : IPolylineOptions)
deriving DecidableEq, Repr

/-- State of `BingPolylineService`: the private `_polylines` lookup table. -/
structure PolylineServiceState where
  _polylines : List (Nat × PolylineProm)
deriving DecidableEq, Repr

/-- The options object built at the start of `AddPolyline`, all thirteen
fields copied from the directive. -/
def BingPolylineService.buildPolylineOptions (polyline : MapPolylineDirective) :
    IPolylineOptions :=
  { id := some polyline.Id
    clickable := some polyline.Clickable
    draggable := some polyline.Draggable
    editable := some polyline.Editable
    geodesic := some polyline.Geodesic
    path := some polyline.Path
    showTooltip := some polyline.ShowTooltip
    strokeColor := some polyline.StrokeColor
    strokeOpacity := some polyline.StrokeOpacity
    strokeWeight := some polyline.StrokeWeight
    title := some polyline.Title
    visible := some polyline.Visible
    zIndex := some polyline.zIndex }

/-- `BingPolylineService.AddPolyline`: build the options object, create the
polyline via the layer service when `InCustomLayer`, else via the map
service, and store the returned promise under the handle. -/
def BingPolylineService.AddPolyline (env : PolylineEnv) (s : PolylineServiceState)
    (polyline : MapPolylineDirective) :
    PolylineServiceState × PolylineCreateCall × PolylineProm :=
  let o := BingPolylineService.buildPolylineOptions polyline
  let created :=
    if polyline.InCustomLayer then
      (PolylineCreateCall.layer polyline.LayerId o, env.layerCreatePolyline polyline.LayerId o)
    else
      (PolylineCreateCall.mapSvc o, env.mapCreatePolyline o)
  (⟨mapSet s._polylines polyline.oid created.2⟩, created)

/-- Subscription behaviour of `BingPolylineService.CreateEventObservable`:
for `mousemove` and `rightclick` a fresh `Subject`-backed observable that
never emits and registers nothing is returned before the table is read;
otherwise each subscription registers the listener on every native
polyline of the entry. -/
inductive PolylineSubscribeResult (T : Type)
  | silentObservable
  | throws
  | registered (regs : List (ListenerRegistration T))

/-- Subscription behaviour of `BingPolylineService.CreateEventObservable`. -/
def BingPolylineService.subscribeEventObservable (T : Type) (s : PolylineServiceState)
    (eventName : String) (polyline : MapPolylineDirective) : PolylineSubscribeResult T :=
  if eventName = "mousemove" then PolylineSubscribeResult.silentObservable
  else if eventName = "rightclick" then PolylineSubscribeResult.silentObservable
  else
    match mapGet s._polylines polyline.oid with
    | none => PolylineSubscribeResult.throws
    | some prom =>
      PolylineSubscribeResult.registered
        ((toPolylineArray prom.value).map
          (fun line => ⟨line.nid, eventName, fun e => Emission.next e⟩))

/-- `BingPolylineService.DeletePolyline`: resolved no-op when the handle
has no entry; otherwise, after the stored promise resolves, delete every
native polyline of the entry and remove the entry. -/
def BingPolylineService.DeletePolyline (s : PolylineServiceState)
    (polyline : MapPolylineDirective) :
    PolylineServiceState × UpdateOutcome NativePolylineCall :=
  match mapGet s._polylines polyline.oid with
  | none => (s, UpdateOutcome.resolvedNow)
  | some prom =>
    (⟨mapDelete s._polylines polyline.oid⟩,
     UpdateOutcome.afterPromise
       ((toPolylineArray prom.value).map (fun line => NativePolylineCall.Delete line.nid)))

/-- The mouse-event payload the polyline service inspects: the optional
`location` property; the event argument itself may be `null`. -/
structure PolylineMouseEvent where
  location : Option ILatLong
deriving DecidableEq, Repr

/-- `BingPolylineService.GetCoordinatesFromClick`: null checks in source
order, then the event location's coordinates. -/
def BingPolylineService.GetCoordinatesFromClick (e : Option PolylineMouseEvent) :
    Option ILatLong :=
  match e with
  | none => none
  | some ev =>
    match ev.location with
    | none => none
    | some loc => some loc

/-- `BingPolylineService.GetNativePolyline`: return the stored promise. -/
def BingPolylineService.GetNativePolyline (s : PolylineServiceState)
    (polyline : MapPolylineDirective) : Option PolylineProm :=
  mapGet s._polylines polyline.oid

/-- `BingPolylineService.SetOptions`: `.then` on the lookup result (throws
when the entry is absent), forwarding `SetOptions(options)` to every native
polyline of the entry. -/
def BingPolylineService.SetOptions (s : PolylineServiceState)
    (polyline : MapPolylineDirective) (options : IPolylineOptions) :
    PolylineServiceState × UpdateOutcome NativePolylineCall :=
  match mapGet s._polylines polyline.oid with
  | none => (s, UpdateOutcome.throws)
  | some prom =>
    (s, UpdateOutcome.afterPromise
      ((toPolylineArray prom.value).map
        (fun line => NativePolylineCall.SetOptions line.nid options)))

/-- The path normalization of `UpdatePolyline`:
`polyline.Path.length > 0 && Array.isArray(polyline.Path[0]) ? Path : [Path]`.
A simple path, or an empty complex path, is wrapped in a singleton array. -/
def BingPolylineService.normalizePath : PolylinePath → List (List ILatLong)
  | PolylinePath.simple path => [path]
  | PolylinePath.complex paths => if 0 < paths.length then paths else [[]]

/-- `BingPolylineService.UpdatePolyline`: resolved no-op when the handle has
no entry. Otherwise every native polyline whose index is below the number
of normalized path segments receives `SetPath` of its segment; then, when
the entry is an array longer than the segment list, `l.splice(p.length - 1)`
removes the native polylines from index `p.length - 1` on and deletes each
of them. -/
def BingPolylineService.UpdatePolyline (s : PolylineServiceState)
    (polyline : MapPolylineDirective) :
    PolylineServiceState × UpdateOutcome NativePolylineCall :=
  match mapGet s._polylines polyline.oid with
  | none => (s, UpdateOutcome.resolvedNow)
  | some prom =>
    let x := toPolylineArray prom.value
    let p := BingPolylineService.normalizePath polyline.Path
    let setCalls := x.enum.filterMap (fun ia =>
      if ia.1 < p.length then
        some (NativePolylineCall.SetPath ia.2.nid (p.getD ia.1 []))
      else none)
    match prom.value with
    | PolylineOrArray.arr ps =>
      if p.length < ps.length then
        (⟨mapSet s._polylines polyline.oid ⟨prom.pid, PolylineOrArray.arr (ps.take (p.length - 1))⟩⟩,
         UpdateOutcome.afterPromise
           (setCalls ++ (ps.drop (p.length - 1)).map
             (fun line => NativePolylineCall.Delete line.nid)))
      else (s, UpdateOutcome.afterPromise setCalls)
    | PolylineOrArray.single _ => (s, UpdateOutcome.afterPromise setCalls)

/-- The operations of `BingPolylineService` that can touch the `_polylines`
table. -/
inductive PolylineOp
  | addPolyline (polyline : MapPolylineDirective)
  | createEventObservable (eventName : String) (polyline : MapPolylineDirective)
  | deletePolyline (polyline : MapPolylineDirective)
  | getNativePolyline (polyline : MapPolylineDirective)
  | setOptions (polyline : MapPolylineDirective) (options : IPolylineOptions)
  | updatePolyline (polyline : MapPolylineDirective)
deriving DecidableEq, Repr

/-- The `_polylines` table after an operation of the polyline service (and
the completion of any continuation the operation attaches). -/
def polylineOpState (env : PolylineEnv) (s : PolylineServiceState) :
    PolylineOp → PolylineServiceState
  | PolylineOp.addPolyline d => (BingPolylineService.AddPolyline env s d).1
  | PolylineOp.createEventObservable _ _ => s
  | PolylineOp.deletePolyline d => (BingPolylineService.DeletePolyline s d).1
  | PolylineOp.getNativePolyline _ => s
  | PolylineOp.setOptions d o => (BingPolylineService.SetOptions s d o).1
  | PolylineOp.updatePolyline d => (BingPolylineService.UpdatePolyline s d).1

/-- Sample external behaviour for the marker service. -/
def envM : MarkerEnv :=
  { clusterCreateMarker := fun _ _ => ⟨100, 200⟩
    layerCreateMarker := fun _ _ => ⟨101, 201⟩
    mapCreateMarker := fun _ => ⟨102, 202⟩
    translateMarkerOptionsIcon := fun _ => some "translated" }

/-- Sample marker handle with object identity 5, outside any layer. -/
def mk5 : MapMarker :=
  { oid := 5, Latitude := 10, Longitude := 20, Title := "t", Label := "L",
    Draggable := true, IconUrl := "u", IconInfo := none, Width := none,
    Height := none, Anchor := none, Metadata := none, InClusterLayer := false,
    InCustomLayer := false, LayerId := 3 }

/-- Marker service with an empty lookup table. -/
def stEmpty : MarkerServiceState := ⟨[]⟩

/-- Marker service whose table holds the entry `AddMarker` stores for
`mk5` under `envM`. -/
def stMk5 : MarkerServiceState := ⟨[(5, ⟨102, 202⟩)]⟩

/-- Sample external behaviour for the polyline service. -/
def envP : PolylineEnv :=
  { layerCreatePolyline := fun _ _ => ⟨60, PolylineOrArray.single ⟨70⟩⟩
    mapCreatePolyline := fun _ => ⟨61, PolylineOrArray.single ⟨71⟩⟩ }

/-- Sample polyline directive with object identity 7 and a two-segment
complex path. -/
def pl7 : MapPolylineDirective :=
  { oid := 7, Id := 1, Clickable := true, Draggable := false, Editable := false,
    Geodesic := false, Path := PolylinePath.complex [[⟨1, 1⟩], [⟨2, 2⟩]],
    ShowTooltip := false, StrokeColor := "red", StrokeOpacity := 1,
    StrokeWeight := 2, Title := "pl", Visible := true, zIndex := 0,
    InCustomLayer := false, LayerId := 4 }

/-- Polyline service with an empty lookup table. -/
def pstEmpty : PolylineServiceState := ⟨[]⟩

/-- Polyline service whose table maps `pl7` to a promise resolved to an
array of three native polylines. -/
def pstPl7 : PolylineServiceState :=
  ⟨[(7, ⟨50, PolylineOrArray.arr [⟨0⟩, ⟨1⟩, ⟨2⟩]⟩)]⟩

/-- Claim C1, counterexample: on a marker handle with no lookup entry,
`UpdateTitle` is not a no-op that completes without error — it calls
`.then` on the `undefined` result of `this._markers.get(marker)` and
throws a `TypeError`. -/
theorem claim_C1_counterexample :
    BingMarkerService.GetNativeMarker stEmpty mk5 = none ∧
    (BingMarkerService.UpdateTitle stEmpty mk5).2 = UpdateOutcome.throws := by
  exact ⟨rfl, rfl⟩

/-- Claim C1, amended: on a handle with no lookup entry every listed
mutating operation leaves the service state unchanged, but only
`DeleteMarker`, `DeletePolyline` and `UpdatePolyline` (which test the
lookup result against `null`) complete without error, returning an
already-resolved promise; `UpdateAnchor`, `UpdateMarkerPosition`,
`UpdateTitle`, `UpdateLabel`, `UpdateDraggable`, `UpdateIcon` and
`SetOptions` throw a `TypeError` by calling `.then` on `undefined`. -/
theorem claim_C1_amended (s : MarkerServiceState) (marker : MapMarker)
    (env : MarkerEnv) (hm : mapGet s._markers marker.oid = none)
    (t : PolylineServiceState) (polyline : MapPolylineDirective)
    (options : IPolylineOptions) (hp : mapGet t._polylines polyline.oid = none) :
    BingMarkerService.DeleteMarker s marker = (s, UpdateOutcome.resolvedNow) ∧
    BingMarkerService.UpdateAnchor s marker = (s, UpdateOutcome.throws) ∧
    BingMarkerService.UpdateMarkerPosition s marker = (s, UpdateOutcome.throws) ∧
    BingMarkerService.UpdateTitle s marker = (s, UpdateOutcome.throws) ∧
    BingMarkerService.UpdateLabel s marker = (s, UpdateOutcome.throws) ∧
    BingMarkerService.UpdateDraggable s marker = (s, UpdateOutcome.throws) ∧
    BingMarkerService.UpdateIcon env s marker = (s, UpdateOutcome.throws) ∧
    BingPolylineService.DeletePolyline t polyline = (t, UpdateOutcome.resolvedNow) ∧
    BingPolylineService.SetOptions t polyline options = (t, UpdateOutcome.throws) ∧
    BingPolylineService.UpdatePolyline t polyline = (t, UpdateOutcome.resolvedNow) := by
  refine ⟨?_, ?_, ?_, ?_, ?_, ?_, ?_, ?_, ?_, ?_⟩
  · simp [BingMarkerService.DeleteMarker, hm]
  · simp [BingMarkerService.UpdateAnchor, hm]
  · simp [BingMarkerService.UpdateMarkerPosition, hm]
  · simp [BingMarkerService.UpdateTitle, hm]
  · simp [BingMarkerService.UpdateLabel, hm]
  · simp [BingMarkerService.UpdateDraggable, hm]
  · simp [BingMarkerService.UpdateIcon, hm]
  · simp [BingPolylineService.DeletePolyline, hp]
  · simp [BingPolylineService.SetOptions, hp]
  · simp [BingPolylineService.UpdatePolyline, hp]

/-- Witness for the amended claim C1 at a concrete empty service. -/
theorem claim_C1_amended_witness :
    BingMarkerService.UpdateTitle stEmpty mk5 = (stEmpty, UpdateOutcome.throws) ∧
    BingPolylineService.UpdatePolyline pstEmpty pl7 = (pstEmpty, UpdateOutcome.resolvedNow) := by
  have h := claim_C1_amended stEmpty mk5 envM rfl pstEmpty pl7 {} rfl
  exact ⟨h.2.2.2.1, h.2.2.2.2.2.2.2.2.2⟩

/-- Claim C2: after `AddMarker` (resp. `AddPolyline`) the table has an
entry for the handle; the entry persists across every operation other than
`DeleteMarker` (resp. `DeletePolyline`) on the same handle; adding touches
no other key, deleting removes exactly the handle's entry, and no operation
besides add and delete adds an entry to or removes an entry from the table
(`UpdatePolyline` may replace the array stored inside an existing entry but
never a key). -/
theorem claim_C2 (envm : MarkerEnv) (s : MarkerServiceState)
    (envp : PolylineEnv) (t : PolylineServiceState) :
    (∀ marker : MapMarker,
      (mapGet (markerOpState envm s (MarkerOp.addMarker marker))._markers marker.oid).isSome = true) ∧
    (∀ marker : MapMarker, ∀ k, k ≠ marker.oid →
      mapGet (markerOpState envm s (MarkerOp.addMarker marker))._markers k = mapGet s._markers k) ∧
    (∀ op : MarkerOp, (∀ m, op ≠ MarkerOp.addMarker m) → (∀ m, op ≠ MarkerOp.deleteMarker m) →
      markerOpState envm s op = s) ∧
    (∀ marker : MapMarker,
      mapGet (markerOpState envm s (MarkerOp.deleteMarker marker))._markers marker.oid = none) ∧
    (∀ marker : MapMarker, ∀ k, k ≠ marker.oid →
      mapGet (markerOpState envm s (MarkerOp.deleteMarker marker))._markers k = mapGet s._markers k) ∧
    (∀ polyline : MapPolylineDirective,
      (mapGet (polylineOpState envp t (PolylineOp.addPolyline polyline))._polylines polyline.oid).isSome = true) ∧
    (∀ polyline : MapPolylineDirective, ∀ k, k ≠ polyline.oid →
      mapGet (polylineOpState envp t (PolylineOp.addPolyline polyline))._polylines k = mapGet t._polylines k) ∧
    (∀ op : PolylineOp, (∀ d, op ≠ PolylineOp.addPolyline d) → (∀ d, op ≠ PolylineOp.deletePolyline d) →
      ∀ k, (mapGet (polylineOpState envp t op)._polylines k).isSome = (mapGet t._polylines k).isSome) ∧
    (∀ polyline : MapPolylineDirective,
      mapGet (polylineOpState envp t (PolylineOp.deletePolyline polyline))._polylines polyline.oid = none) ∧
    (∀ polyline : MapPolylineDirective, ∀ k, k ≠ polyline.oid →
      mapGet (polylineOpState envp t (PolylineOp.deletePolyline polyline))._polylines k = mapGet t._polylines k) := by
  refine ⟨?_, ?_, ?_, ?_, ?_, ?_, ?_, ?_, ?_, ?_⟩
  · intro marker
    simp [markerOpState, BingMarkerService.AddMarker, mapGet_mapSet_self]
  · intro marker k hk
    simp [markerOpState, BingMarkerService.AddMarker, mapGet_mapSet_ne _ _ _ _ hk]
  · intro op h1 h2
    cases op with
    | addMarker m => exact absurd rfl (h1 m)
    | deleteMarker m => exact absurd rfl (h2 m)
    | createEventObservable en m => rfl
    | getNativeMarker m => rfl
    | locationToPoint m =>
      simp only [markerOpState, BingMarkerService.LocationToPoint]
      cases hm : mapGet s._markers m.oid <;> rfl
    | updateAnchor m =>
      simp only [markerOpState, BingMarkerService.UpdateAnchor]
      cases hm : mapGet s._markers m.oid <;> rfl
    | updateMarkerPosition m =>
      simp only [markerOpState, BingMarkerService.UpdateMarkerPosition]
      cases hm : mapGet s._markers m.oid <;> rfl
    | updateTitle m =>
      simp only [markerOpState, BingMarkerService.UpdateTitle]
      cases hm : mapGet s._markers m.oid <;> rfl
    | updateLabel m =>
      simp only [markerOpState, BingMarkerService.UpdateLabel]
      cases hm : mapGet s._markers m.oid <;> rfl
    | updateDraggable m =>
      simp only [markerOpState, BingMarkerService.UpdateDraggable]
      cases hm : mapGet s._markers m.oid <;> rfl
    | updateIcon m =>
      simp only [markerOpState, BingMarkerService.UpdateIcon]
      cases hm : mapGet s._markers m.oid with
      | none => rfl
      | some v => cases m.IconInfo <;> rfl
  · intro marker
    simp only [markerOpState, BingMarkerService.DeleteMarker]
    cases hm : mapGet s._markers marker.oid with
    | none => simpa using hm
    | some v => simpa using mapGet_mapDelete_self s._markers marker.oid
  · intro marker k hk
    simp only [markerOpState, BingMarkerService.DeleteMarker]
    cases hm : mapGet s._markers marker.oid with
    | none => rfl
    | some v => simpa using mapGet_mapDelete_ne s._markers marker.oid k hk
  · intro polyline
    simp [polylineOpState, BingPolylineService.AddPolyline, mapGet_mapSet_self]
  · intro polyline k hk
    simp [polylineOpState, BingPolylineService.AddPolyline, mapGet_mapSet_ne _ _ _ _ hk]
  · intro op h1 h2
    cases op with
    | addPolyline d => exact absurd rfl (h1 d)
    | deletePolyline d => exact absurd rfl (h2 d)
    | createEventObservable en d => intro k; rfl
    | getNativePolyline d => intro k; rfl
    | setOptions d o =>
      intro k
      simp only [polylineOpState, BingPolylineService.SetOptions]
      cases hm : mapGet t._polylines d.oid <;> rfl
    | updatePolyline d =>
      intro k
      simp only [polylineOpState, BingPolylineService.UpdatePolyline]
      cases hm : mapGet t._polylines d.oid with
      | none => rfl
      | some prom =>
        obtain ⟨pid, value⟩ := prom
        cases value with
        | single p => rfl
        | arr ps =>
          by_cases hlen : (BingPolylineService.normalizePath d.Path).length < ps.length
          · by_cases hkd : k = d.oid
            · subst hkd
              simp [hlen, mapGet_mapSet_self, hm]
            · simp [hlen, mapGet_mapSet_ne _ _ _ _ hkd]
          · simp [hlen]
  · intro polyline
    simp only [polylineOpState, BingPolylineService.DeletePolyline]
    cases hm : mapGet t._polylines polyline.oid with
    | none => simpa using hm
    | some v => simpa using mapGet_mapDelete_self t._polylines polyline.oid
  · intro polyline k hk
    simp only [polylineOpState, BingPolylineService.DeletePolyline]
    cases hm : mapGet t._polylines polyline.oid with
    | none => rfl
    | some v => simpa using mapGet_mapDelete_ne t._polylines polyline.oid k hk

/-- Witness for claim C2 at concrete services: an update leaves the entry
in place, deletion removes it, and adding a polyline creates it. -/
theorem claim_C2_witness :
    (mapGet (markerOpState envM stMk5 (MarkerOp.updateTitle mk5))._markers 5).isSome = true ∧
    mapGet (markerOpState envM stMk5 (MarkerOp.deleteMarker mk5))._markers 5 = none ∧
    (mapGet (polylineOpState envP pstEmpty (PolylineOp.addPolyline pl7))._polylines 7).isSome = true := by
  have h := claim_C2 envM stMk5 envP pstEmpty
  refine ⟨?_, ?_, ?_⟩
  · have h3 := h.2.2.1 (MarkerOp.updateTitle mk5)
      (fun m e => MarkerOp.noConfusion e) (fun m e => MarkerOp.noConfusion e)
    rw [h3]
    rfl
  · exact h.2.2.2.1 mk5
  · exact h.2.2.2.2.2.1 pl7

/-- Claim C3: `AddMarker` and `AddPolyline` build a single options object
from the handle's current properties and make exactly one creation call,
selected by the layer context — cluster service when `InClusterLayer`, else
layer service when `InCustomLayer`, else map service (layer service versus
map service for polylines) — and in every case the promise returned by that
call is the one stored in the lookup table under the handle. -/
theorem claim_C3 (envm : MarkerEnv) (s : MarkerServiceState) (marker : MapMarker)
    (envp : PolylineEnv) (t : PolylineServiceState) (polyline : MapPolylineDirective) :
    (marker.InClusterLayer = true →
      (BingMarkerService.AddMarker envm s marker).2.createCall =
        MarkerCreateCall.cluster marker.LayerId (BingMarkerService.buildMarkerOptions marker) ∧
      (BingMarkerService.AddMarker envm s marker).2.prom =
        envm.clusterCreateMarker marker.LayerId (BingMarkerService.buildMarkerOptions marker)) ∧
    (marker.InClusterLayer = false → marker.InCustomLayer = true →
      (BingMarkerService.AddMarker envm s marker).2.createCall =
        MarkerCreateCall.layer marker.LayerId (BingMarkerService.buildMarkerOptions marker) ∧
      (BingMarkerService.AddMarker envm s marker).2.prom =
        envm.layerCreateMarker marker.LayerId (BingMarkerService.buildMarkerOptions marker)) ∧
    (marker.InClusterLayer = false → marker.InCustomLayer = false →
      (BingMarkerService.AddMarker envm s marker).2.createCall =
        MarkerCreateCall.mapSvc (BingMarkerService.buildMarkerOptions marker) ∧
      (BingMarkerService.AddMarker envm s marker).2.prom =
        envm.mapCreateMarker (BingMarkerService.buildMarkerOptions marker)) ∧
    (mapGet (BingMarkerService.AddMarker envm s marker).1._markers marker.oid =
      some (BingMarkerService.AddMarker envm s marker).2.prom) ∧
    (polyline.InCustomLayer = true →
      (BingPolylineService.AddPolyline envp t polyline).2.1 =
        PolylineCreateCall.layer polyline.LayerId (BingPolylineService.buildPolylineOptions polyline) ∧
      (BingPolylineService.AddPolyline envp t polyline).2.2 =
        envp.layerCreatePolyline polyline.LayerId (BingPolylineService.buildPolylineOptions polyline)) ∧
    (polyline.InCustomLayer = false →
      (BingPolylineService.AddPolyline envp t polyline).2.1 =
        PolylineCreateCall.mapSvc (BingPolylineService.buildPolylineOptions polyline) ∧
      (BingPolylineService.AddPolyline envp t polyline).2.2 =
        envp.mapCreatePolyline (BingPolylineService.buildPolylineOptions polyline)) ∧
    (mapGet (BingPolylineService.AddPolyline envp t polyline).1._polylines polyline.oid =
      some (BingPolylineService.AddPolyline envp t polyline).2.2) := by
  refine ⟨?_, ?_, ?_, ?_, ?_, ?_, ?_⟩
  · intro h1
    constructor <;> simp [BingMarkerService.AddMarker, h1]
  · intro h1 h2
    constructor <;> simp [BingMarkerService.AddMarker, h1, h2]
  · intro h1 h2
    constructor <;> simp [BingMarkerService.AddMarker, h1, h2]
  · simp [BingMarkerService.AddMarker, mapGet_mapSet_self]
  · intro h1
    constructor <;> simp [BingPolylineService.AddPolyline, h1]
  · intro h1
    constructor <;> simp [BingPolylineService.AddPolyline, h1]
  · simp [BingPolylineService.AddPolyline, mapGet_mapSet_self]

/-- Witness for claim C3: `mk5` sits in no layer, so its marker is created
through the map service and the returned promise is stored; `pl7` likewise. -/
theorem claim_C3_witness :
    (BingMarkerService.AddMarker envM stEmpty mk5).2.createCall =
      MarkerCreateCall.mapSvc (BingMarkerService.buildMarkerOptions mk5) ∧
    mapGet (BingMarkerService.AddMarker envM stEmpty mk5).1._markers 5 =
      some ⟨102, 202⟩ ∧
    (BingPolylineService.AddPolyline envP pstEmpty pl7).2.1 =
      PolylineCreateCall.mapSvc (BingPolylineService.buildPolylineOptions pl7) ∧
    mapGet (BingPolylineService.AddPolyline envP pstEmpty pl7).1._polylines 7 =
      some ⟨61, PolylineOrArray.single ⟨71⟩⟩ := by
  have h := claim_C3 envM stEmpty mk5 envP pstEmpty pl7
  refine ⟨(h.2.2.1 rfl rfl).1, ?_, (h.2.2.2.2.2.1 rfl).1, ?_⟩
  · have h4 := h.2.2.2.1
    have e1 : (5 : Nat) = mk5.oid := rfl
    rw [e1, h4]
    rfl
  · have h7 := h.2.2.2.2.2.2
    have e2 : (7 : Nat) = pl7.oid := rfl
    rw [e2, h7]
    rfl

/-- Claim C4: on a marker handle with a lookup entry, each update operation
awaits the stored promise and forwards exactly one mutator call carrying
the handle's current property value: `SetTitle(marker.Title)`,
`SetLabel(marker.Label)`, `SetDraggable(marker.Draggable)`, `SetPosition`
with the current latitude and longitude, and `SetAnchor(marker.Anchor)`;
none of them changes the lookup table. -/
theorem claim_C4 (s : MarkerServiceState) (marker : MapMarker) (m : MarkerProm)
    (h : mapGet s._markers marker.oid = some m) :
    BingMarkerService.UpdateTitle s marker =
      (s, UpdateOutcome.afterPromise
        [MarkerAction.nativeCall m.native (NativeMarkerCall.SetTitle marker.Title)]) ∧
    BingMarkerService.UpdateLabel s marker =
      (s, UpdateOutcome.afterPromise
        [MarkerAction.nativeCall m.native (NativeMarkerCall.SetLabel marker.Label)]) ∧
    BingMarkerService.UpdateDraggable s marker =
      (s, UpdateOutcome.afterPromise
        [MarkerAction.nativeCall m.native (NativeMarkerCall.SetDraggable marker.Draggable)]) ∧
    BingMarkerService.UpdateMarkerPosition s marker =
      (s, UpdateOutcome.afterPromise
        [MarkerAction.nativeCall m.native
          (NativeMarkerCall.SetPosition ⟨marker.Latitude, marker.Longitude⟩)]) ∧
    BingMarkerService.UpdateAnchor s marker =
      (s, UpdateOutcome.afterPromise
        [MarkerAction.nativeCall m.native (NativeMarkerCall.SetAnchor marker.Anchor)]) := by
  refine ⟨?_, ?_, ?_, ?_, ?_⟩
  · simp [BingMarkerService.UpdateTitle, h]
  · simp [BingMarkerService.UpdateLabel, h]
  · simp [BingMarkerService.UpdateDraggable, h]
  · simp [BingMarkerService.UpdateMarkerPosition, h]
  · simp [BingMarkerService.UpdateAnchor, h]

/-- Witness for claim C4 at the concrete service holding `mk5`. -/
theorem claim_C4_witness :
    BingMarkerService.UpdateTitle stMk5 mk5 =
      (stMk5, UpdateOutcome.afterPromise
        [MarkerAction.nativeCall 202 (NativeMarkerCall.SetTitle "t")]) ∧
    BingMarkerService.UpdateMarkerPosition stMk5 mk5 =
      (stMk5, UpdateOutcome.afterPromise
        [MarkerAction.nativeCall 202 (NativeMarkerCall.SetPosition ⟨10, 20⟩)]) := by
  have h := claim_C4 stMk5 mk5 ⟨102, 202⟩ rfl
  exact ⟨h.1, h.2.2.2.1⟩

/-- Claim C5: `DeleteMarker` and `DeletePolyline` return a resolved promise
and change nothing when the handle has no entry; when an entry exists they
delete, after the stored promise resolves, every associated native object
(each element when the polyline entry is an array) and remove exactly the
handle's entry from the table. -/
theorem claim_C5 (s : MarkerServiceState) (marker : MapMarker)
    (t : PolylineServiceState) (polyline : MapPolylineDirective) :
    (mapGet s._markers marker.oid = none →
      BingMarkerService.DeleteMarker s marker = (s, UpdateOutcome.resolvedNow)) ∧
    (∀ m : MarkerProm, mapGet s._markers marker.oid = some m →
      BingMarkerService.DeleteMarker s marker =
        (⟨mapDelete s._markers marker.oid⟩,
         UpdateOutcome.afterPromise
           [MarkerAction.nativeCall m.native NativeMarkerCall.DeleteMarker]) ∧
      mapGet (BingMarkerService.DeleteMarker s marker).1._markers marker.oid = none ∧
      (∀ k, k ≠ marker.oid →
        mapGet (BingMarkerService.DeleteMarker s marker).1._markers k = mapGet s._markers k)) ∧
    (mapGet t._polylines polyline.oid = none →
      BingPolylineService.DeletePolyline t polyline = (t, UpdateOutcome.resolvedNow)) ∧
    (∀ prom : PolylineProm, mapGet t._polylines polyline.oid = some prom →
      BingPolylineService.DeletePolyline t polyline =
        (⟨mapDelete t._polylines polyline.oid⟩,
         UpdateOutcome.afterPromise
           ((toPolylineArray prom.value).map
             (fun line => NativePolylineCall.Delete line.nid))) ∧
      mapGet (BingPolylineService.DeletePolyline t polyline).1._polylines polyline.oid = none ∧
      (∀ k, k ≠ polyline.oid →
        mapGet (BingPolylineService.DeletePolyline t polyline).1._polylines k =
          mapGet t._polylines k)) := by
  refine ⟨?_, ?_, ?_, ?_⟩
  · intro h
    simp [BingMarkerService.DeleteMarker, h]
  · intro m h
    refine ⟨?_, ?_, ?_⟩
    · simp [BingMarkerService.DeleteMarker, h]
    · simp [BingMarkerService.DeleteMarker, h, mapGet_mapDelete_self]
    · intro k hk
      simp [BingMarkerService.DeleteMarker, h, mapGet_mapDelete_ne _ _ _ hk]
  · intro h
    simp [BingPolylineService.DeletePolyline, h]
  · intro prom h
    refine ⟨?_, ?_, ?_⟩
    · simp [BingPolylineService.DeletePolyline, h]
    · simp [BingPolylineService.DeletePolyline, h, mapGet_mapDelete_self]
    · intro k hk
      simp [BingPolylineService.DeletePolyline, h, mapGet_mapDelete_ne _ _ _ hk]

/-- Witness for claim C5: deleting an absent marker resolves without any
change; deleting `pl7` deletes all three natives of its array entry and
empties the table. -/
theorem claim_C5_witness :
    BingMarkerService.DeleteMarker stEmpty mk5 = (stEmpty, UpdateOutcome.resolvedNow) ∧
    BingPolylineService.DeletePolyline pstPl7 pl7 =
      (⟨[]⟩, UpdateOutcome.afterPromise
        [NativePolylineCall.Delete 0, NativePolylineCall.Delete 1,
         NativePolylineCall.Delete 2]) := by
  have h := claim_C5 stEmpty mk5 pstPl7 pl7
  refine ⟨h.1 rfl, ?_⟩
  have h4 := (h.2.2.2 ⟨50, PolylineOrArray.arr [⟨0⟩, ⟨1⟩, ⟨2⟩]⟩ rfl).1
  rw [h4]
  rfl

/-- Claim C6: `GetNativeMarker` and `GetNativePolyline` return exactly the
lookup-table entry — the promise stored by the most recent
`AddMarker`/`AddPolyline` for the handle — and modify no state. -/
theorem claim_C6 (envm : MarkerEnv) (s : MarkerServiceState) (marker : MapMarker)
    (envp : PolylineEnv) (t : PolylineServiceState) (polyline : MapPolylineDirective) :
    BingMarkerService.GetNativeMarker s marker = mapGet s._markers marker.oid ∧
    BingMarkerService.GetNativeMarker (BingMarkerService.AddMarker envm s marker).1 marker =
      some (BingMarkerService.AddMarker envm s marker).2.prom ∧
    markerOpState envm s (MarkerOp.getNativeMarker marker) = s ∧
    BingPolylineService.GetNativePolyline t polyline = mapGet t._polylines polyline.oid ∧
    BingPolylineService.GetNativePolyline (BingPolylineService.AddPolyline envp t polyline).1 polyline =
      some (BingPolylineService.AddPolyline envp t polyline).2.2 ∧
    polylineOpState envp t (PolylineOp.getNativePolyline polyline) = t := by
  refine ⟨rfl, ?_, rfl, rfl, ?_, rfl⟩
  · simp [BingMarkerService.GetNativeMarker, BingMarkerService.AddMarker, mapGet_mapSet_self]
  · simp [BingPolylineService.GetNativePolyline, BingPolylineService.AddPolyline, mapGet_mapSet_self]

/-- Claim C7: on a marker handle with a lookup entry, each subscription to
the observable of `CreateEventObservable(eventName, marker)` registers,
once the creation promise resolves, exactly one
`AddListener(eventName, ...)` on the native marker, and the installed
handler forwards every raised event to the subscriber; subscribing changes
no service state. -/
theorem claim_C7 (T : Type) (envm : MarkerEnv) (s : MarkerServiceState)
    (eventName : String) (marker : MapMarker) (m : MarkerProm)
    (h : mapGet s._markers marker.oid = some m) :
    (∃ reg : ListenerRegistration T,
      BingMarkerService.subscribeEventObservable T s eventName marker =
        SubscribeResult.registered [reg] ∧
      reg.target = m.native ∧ reg.eventName = eventName ∧
      ∀ e : T, reg.handler e = Emission.next e) ∧
    markerOpState envm s (MarkerOp.createEventObservable eventName marker) = s := by
  refine ⟨⟨⟨m.native, eventName, fun e => Emission.next e⟩, ?_, rfl, rfl, fun e => rfl⟩, rfl⟩
  simp [BingMarkerService.subscribeEventObservable, h]

/-- Witness for claim C7 at the concrete service holding `mk5`. -/
theorem claim_C7_witness :
    ∃ reg : ListenerRegistration Nat,
      BingMarkerService.subscribeEventObservable Nat stMk5 "click" mk5 =
        SubscribeResult.registered [reg] ∧
      reg.target = 202 ∧ reg.eventName = "click" ∧
      ∀ e : Nat, reg.handler e = Emission.next e := by
  have h := claim_C7 Nat envM stMk5 "click" mk5 ⟨102, 202⟩ rfl
  exact h.1

/-- Claim C8 evaluated on the code: for the entry `[0, 1, 2]` and the
two-segment path of `pl7` (`length p = 2`), the natives at indices 0 and 1
receive `SetPath`, but `l.splice(p.length - 1)` then deletes the natives at
indices 1 and 2 — including native 1, which was just updated — and leaves
only `[0]` in the stored array, where the claim requires deleting exactly
index 2 and keeping `[0, 1]`. -/
theorem claim_C8_code_eval :
    BingPolylineService.UpdatePolyline pstPl7 pl7 =
      (⟨[(7, ⟨50, PolylineOrArray.arr [⟨0⟩]⟩)]⟩,
       UpdateOutcome.afterPromise
         [NativePolylineCall.SetPath 0 [⟨1, 1⟩], NativePolylineCall.SetPath 1 [⟨2, 2⟩],
          NativePolylineCall.Delete 1, NativePolylineCall.Delete 2]) := by
  rfl

/-- Claim C9: the polyline `CreateEventObservable` returns a silent,
listener-free observable for `mousemove` and `rightclick`; for every other
event name, subscribing with a lookup entry present registers the listener
on each native polyline of the entry. -/
theorem claim_C9 (T : Type) (s : PolylineServiceState) (eventName : String)
    (polyline : MapPolylineDirective) (prom : PolylineProm) :
    BingPolylineService.subscribeEventObservable T s "mousemove" polyline =
      PolylineSubscribeResult.silentObservable ∧
    BingPolylineService.subscribeEventObservable T s "rightclick" polyline =
      PolylineSubscribeResult.silentObservable ∧
    (eventName ≠ "mousemove" → eventName ≠ "rightclick" →
      mapGet s._polylines polyline.oid = some prom →
      BingPolylineService.subscribeEventObservable T s eventName polyline =
        PolylineSubscribeResult.registered
          ((toPolylineArray prom.value).map
            (fun line => ⟨line.nid, eventName, fun e => Emission.next e⟩))) := by
  refine ⟨rfl, ?_, ?_⟩
  · simp [BingPolylineService.subscribeEventObservable]
  · intro h1 h2 h3
    simp [BingPolylineService.subscribeEventObservable, h1, h2, h3]

/-- Witness for claim C9: `mousemove` is silenced on the concrete service;
a `click` subscription registers on all three natives of the entry. -/
theorem claim_C9_witness :
    BingPolylineService.subscribeEventObservable Nat pstPl7 "mousemove" pl7 =
      PolylineSubscribeResult.silentObservable ∧
    BingPolylineService.subscribeEventObservable Nat pstPl7 "click" pl7 =
      PolylineSubscribeResult.registered
        [⟨0, "click", fun e => Emission.next e⟩,
         ⟨1, "click", fun e => Emission.next e⟩,
         ⟨2, "click", fun e => Emission.next e⟩] := by
  have h := claim_C9 Nat pstPl7 "click" pl7 ⟨50, PolylineOrArray.arr [⟨0⟩, ⟨1⟩, ⟨2⟩]⟩
  refine ⟨h.1, ?_⟩
  have h3 := h.2.2 (by decide) (by decide) rfl
  rw [h3]
  rfl

/-- Claim C10: both `GetCoordinatesFromClick` helpers return `null` rather
than throwing on a missing event, a missing payload (`primitive` for the
marker service, `location` for the polyline service) or a non-`Pushpin`
primitive, and otherwise the clicked object's coordinates;
`GetPixelsFromClick` returns `null` whenever the coordinates are `null` or
the pixel translation returns `null`, and otherwise the translated point. -/
theorem claim_C10 (env : PixelEnv) (ev : MarkerMouseEvent) (pev : PolylineMouseEvent)
    (e : Option MarkerMouseEvent) (loc : ILatLong) :
    BingMarkerService.GetCoordinatesFromClick none = none ∧
    (ev.primitive = none → BingMarkerService.GetCoordinatesFromClick (some ev) = none) ∧
    (ev.primitive = some BingPrimitive.other →
      BingMarkerService.GetCoordinatesFromClick (some ev) = none) ∧
    (ev.primitive = some (BingPrimitive.pushpin loc) →
      BingMarkerService.GetCoordinatesFromClick (some ev) = some loc) ∧
    BingPolylineService.GetCoordinatesFromClick none = none ∧
    (pev.location = none → BingPolylineService.GetCoordinatesFromClick (some pev) = none) ∧
    (pev.location = some loc → BingPolylineService.GetCoordinatesFromClick (some pev) = some loc) ∧
    (BingMarkerService.GetCoordinatesFromClick e = none →
      BingMarkerService.GetPixelsFromClick env e = none) ∧
    (BingMarkerService.GetCoordinatesFromClick e = some loc →
      env.tryLocationToPixel (env.translateLocation loc) = none →
      BingMarkerService.GetPixelsFromClick env e = none) ∧
    (∀ p : BingPoint, BingMarkerService.GetCoordinatesFromClick e = some loc →
      env.tryLocationToPixel (env.translateLocation loc) = some p →
      BingMarkerService.GetPixelsFromClick env e = some ⟨p.x, p.y⟩) := by
  refine ⟨rfl, ?_, ?_, ?_, rfl, ?_, ?_, ?_, ?_, ?_⟩
  · intro h
    simp [BingMarkerService.GetCoordinatesFromClick, h]
  · intro h
    simp [BingMarkerService.GetCoordinatesFromClick, h]
  · intro h
    simp [BingMarkerService.GetCoordinatesFromClick, h]
  · intro h
    simp [BingPolylineService.GetCoordinatesFromClick, h]
  · intro h
    simp [BingPolylineService.GetCoordinatesFromClick, h]
  · intro h
    simp [BingMarkerService.GetPixelsFromClick, h]
  · intro h1 h2
    simp [BingMarkerService.GetPixelsFromClick, h1, h2]
  · intro p h1 h2
    simp [BingMarkerService.GetPixelsFromClick, h1, h2]

/-- Pixel environment whose translation always fails, for the witness. -/
def envPix : PixelEnv :=
  { translateLocation := fun l => ⟨l.latitude, l.longitude⟩
    tryLocationToPixel := fun _ => none }

/-- Witness for claim C10: a clicked pushpin yields its location; a click
on a non-pushpin primitive yields null pixels. -/
theorem claim_C10_witness :
    BingMarkerService.GetCoordinatesFromClick
      (some ⟨some (BingPrimitive.pushpin ⟨3, 4⟩)⟩) = some ⟨3, 4⟩ ∧
    BingMarkerService.GetPixelsFromClick envPix (some ⟨some BingPrimitive.other⟩) = none := by
  have h := claim_C10 envPix ⟨some (BingPrimitive.pushpin ⟨3, 4⟩)⟩ ⟨none⟩
    (some ⟨some BingPrimitive.other⟩) ⟨3, 4⟩
  exact ⟨h.2.2.2.1 rfl, h.2.2.2.2.2.2.2.1 rfl⟩
